import Mathlib

/-!
Verification of the HomeServer identity-and-access core against its
natural-language specification.

The development shallowly embeds the Python sources:
  * `src/services/browser/service.py`  (path sandbox / file browser),
  * `src/services/auth/service.py`     (authentication service),
  * `src/dependencies.py`              (authorization guard),
  * `src/api/auth.py`                  (register / login endpoints),
  * `src/api/monitoring.py`            (websocket authorization).

Pure functions become Lean functions; the SQLAlchemy-backed identity store
becomes an explicit `List UserRec` threaded through the operations; fallible
code returns `Except`.  The filesystem is modelled as a finite association
map from canonical absolute paths (segment lists) to entries, and
`pathlib.Path.resolve()` is modelled as lexical normalisation of `.` and
`..` segments against a current working directory (the symlink-free case).
-/

/-! ## Path strings and lexical resolution

`pathlib.Path.resolve()` makes the candidate absolute against the process
working directory and normalises `.` and `..` segments.  We model paths in
canonical form as lists of segments (the empty list is the root `/`). -/

/-- One split step: accumulate characters of the current segment (reversed)
and cut at every `/`, mirroring how a POSIX path string decomposes into
segments (as Python `str.split` on a slash would). -/
def splitSegsAux (cur : List Char) : List Char → List String
  | [] => [String.mk cur.reverse]
  | c :: cs =>
    if c = '/' then String.mk cur.reverse :: splitSegsAux [] cs
    else splitSegsAux (c :: cur) cs

/-- Split a path string into raw segments at `/` separators. -/
def splitSegs (s : String) : List String :=
  splitSegsAux [] s.toList

/-- Normalise raw segments: empty segments and `.` are dropped, `..` pops
the last canonical segment (and is a no-op at the root), every other
segment is appended.  This is the lexical part of `Path.resolve()`. -/
def normSegs (segs : List String) : List String :=
  segs.foldl
    (fun acc s =>
      if s = "" ∨ s = "." then acc
      else if s = ".." then acc.dropLast
      else acc ++ [s]) []

/-- Boolean string-prefix test, the model of Python `str.startswith`. -/
def strStarts (s pre : String) : Bool :=
  List.isPrefixOf pre.toList s.toList

/-- Model of `Path(path).resolve()`: absolute strings are normalised
directly, relative strings are normalised against the working directory. -/
def resolveStr (cwd : List String) (s : String) : List String :=
  if strStarts s "/" then normSegs (splitSegs s)
  else normSegs (cwd ++ splitSegs s)

/-- Render a canonical segment list back to an absolute path string, the
model of `str(path)` on a resolved `Path` (the empty list is `/`). -/
def render (p : List String) : String :=
  if p = [] then "/" else p.foldl (fun acc s => acc ++ "/" ++ s) ""

/-! ## Filesystem model

A finite map from canonical paths to entries.  Directory entries carry the
names `iterdir()` would yield; every entry carries the `stat()` data the
browser reads (`statOk = false` models a `stat` call that raises, which the
listing loop skips). -/

/-- Result of `stat()` on an entry: size, modification time, POSIX mode
bits, the live `os.access(_, R_OK)` probe, and whether `stat` succeeds. -/
structure FileStat where
  size : Nat
  mtime : Nat
  mode : Nat
  readable : Bool
  statOk : Bool
deriving DecidableEq

/-- A filesystem node: a regular file with its byte content, or a
directory with the child names `iterdir()` yields. -/
inductive FsEntry
  | file (content : List Nat) (st : FileStat)
  | dir (children : List String) (st : FileStat)
deriving DecidableEq

/-- The `stat` data of an entry. -/
def FsEntry.statOf : FsEntry → FileStat
  | .file _ st => st
  | .dir _ st => st

/-- Whether an entry is a directory (`Path.is_dir()`). -/
def FsEntry.isDirEntry : FsEntry → Bool
  | .file _ _ => false
  | .dir _ _ => true

/-- The live filesystem: the working directory the process resolves
relative paths against, and the finite path-to-entry map. -/
structure FS where
  cwd : List String
  nodes : List (List String × FsEntry)
deriving DecidableEq

/-- Look up the entry at a canonical path. -/
def fsLookup (fs : FS) (p : List String) : Option FsEntry :=
  fs.nodes.lookup p

/-- Decidable equality of `Except` results, needed to evaluate concrete
runs of the embedded operations. -/
instance exceptDecEq [DecidableEq ε] [DecidableEq α] : DecidableEq (Except ε α) := fun a b =>
  match a, b with
  | .error e, .error f =>
    if h : e = f then isTrue (by rw [h])
    else isFalse (by intro hh; cases hh; exact h rfl)
  | .ok x, .ok y =>
    if h : x = y then isTrue (by rw [h])
    else isFalse (by intro hh; cases hh; exact h rfl)
  | .error _, .ok _ => isFalse (by intro hh; cases hh)
  | .ok _, .error _ => isFalse (by intro hh; cases hh)

/-! ## The file browser service (`src/services/browser/service.py`) -/

/-- Errors raised by the browser service: `PermissionError`,
`FileNotFoundError`, `NotADirectoryError`, `IsADirectoryError`.  The API
layer maps them to HTTP 403 / 404 / 400 / 400 respectively. -/
inductive BrowserError
  | accessDenied
  | notFound
  | notADirectory
  | isADirectory
deriving DecidableEq

/-- Metadata record for one filesystem entry (`FileSystemItem`). -/
structure FileSystemItem where
  name : String
  path : String
  is_directory : Bool
  size : Option Nat
  modified : Nat
  permissions : String
  is_readable : Bool
deriving DecidableEq

/-- A directory listing (`DirectoryListing`). -/
structure DirectoryListing where
  path : String
  parent : Option String
  items : List FileSystemItem
  total_items : Nat
deriving DecidableEq

/-- Embeds `FileBrowserService._is_path_allowed` applied to an already
resolved path: with no configured roots every path is allowed, otherwise
the rendered resolved path must `startswith` one of the configured root
strings.  (The `path.resolve()` call inside the Python method is the
identity here because every caller passes a resolved path.) -/
def is_path_allowed (allowed : List String) (p : List String) : Bool :=
  if allowed.isEmpty then true
  else allowed.any fun a => strStarts (render p) a

/-- The allow-list verdict on a raw path string: resolve first, then check
membership — `_is_path_allowed(Path(path))` as the service calls it. -/
def is_path_allowed_str (allowed : List String) (cwd : List String) (s : String) : Bool :=
  is_path_allowed allowed (resolveStr cwd s)

/-- One `rwx` triad of `_get_file_permissions`, testing the given read,
write and execute bits of the mode word. -/
def rwxTriad (m r w x : Nat) : String :=
  (if m &&& r ≠ 0 then "r" else "-")
    ++ (if m &&& w ≠ 0 then "w" else "-")
    ++ (if m &&& x ≠ 0 then "x" else "-")

/-- The 9-character permission string from POSIX mode bits
(owner 0o400/0o200/0o100, group 0o40/0o20/0o10, other 0o4/0o2/0o1). -/
def modeString (m : Nat) : String :=
  rwxTriad m 256 128 64 ++ rwxTriad m 32 16 8 ++ rwxTriad m 4 2 1

/-- Embeds `FileBrowserService._get_file_permissions`: re-stat the path
and format the mode bits, returning `"?"` when `stat` raises. -/
def get_file_permissions (fs : FS) (p : List String) : String :=
  match fsLookup fs p with
  | some e => if e.statOf.statOk then modeString e.statOf.mode else "?"
  | none => "?"

/-- Stable insertion of an element into a sorted prefix: keep earlier
elements whose key is `le` the new one in front, so equal keys preserve
arrival order exactly as Python stable sort does. -/
def insertStable (le : α → α → Bool) (a : α) : List α → List α
  | [] => [a]
  | b :: l => if le b a then b :: insertStable le a l else a :: b :: l

/-- Stable sort by a boolean total preorder (model of Python `list.sort`,
which is stable). -/
def sortStable (le : α → α → Bool) (xs : List α) : List α :=
  xs.foldl (fun acc x => insertStable le x acc) []

/-- The listing sort key ordering: directories before files, then
case-insensitive name ascending — `key=lambda x: (not x.is_directory,
x.name.lower())`. -/
def itemLe (a b : FileSystemItem) : Bool :=
  let ka : Nat := if a.is_directory then 0 else 1
  let kb : Nat := if b.is_directory then 0 else 1
  ka < kb || (ka == kb && decide (a.name.toLower ≤ b.name.toLower))

/-- The name of a resolved path (`Path.name`), empty at the root. -/
def lastName (p : List String) : String :=
  (p.getLast?).getD ""

/-- Embeds `FileBrowserService.list_directory`: resolve, then allow-list
check (`PermissionError`), then existence (`FileNotFoundError`), then
directory-type check (`NotADirectoryError`); on success build the parent
link, collect the children that can be statted (others are skipped), and
sort directories-first then case-insensitive name. -/
def list_directory (allowed : List String) (fs : FS) (path : String) :
    Except BrowserError DirectoryListing :=
  let p := resolveStr fs.cwd path
  if ¬ is_path_allowed allowed p then .error .accessDenied
  else
    match fsLookup fs p with
    | none => .error .notFound
    | some (.file _ _) => .error .notADirectory
    | some (.dir children _) =>
      let items := children.filterMap fun n =>
        match fsLookup fs (p ++ [n]) with
        | none => none
        | some e =>
          if ¬ e.statOf.statOk then none
          else some
            { name := n
              path := render (p ++ [n])
              is_directory := e.isDirEntry
              size := if e.isDirEntry then none else some e.statOf.size
              modified := e.statOf.mtime
              permissions := get_file_permissions fs (p ++ [n])
              is_readable := e.statOf.readable }
      let sorted := sortStable itemLe items
      .ok
        { path := render p
          parent := if p = [] then none else some (render p.dropLast)
          items := sorted
          total_items := sorted.length }

/-- Embeds `FileBrowserService.get_file`: resolve, then allow-list check
(`PermissionError`), then existence (`FileNotFoundError`), then
`IsADirectoryError`; on success return the byte content and the metadata
record (whose `is_readable` the source hard-codes to `True`). -/
def get_file (allowed : List String) (fs : FS) (path : String) :
    Except BrowserError (List Nat × FileSystemItem) :=
  let p := resolveStr fs.cwd path
  if ¬ is_path_allowed allowed p then .error .accessDenied
  else
    match fsLookup fs p with
    | none => .error .notFound
    | some (.dir _ _) => .error .isADirectory
    | some (.file content st) =>
      .ok (content,
        { name := lastName p
          path := render p
          is_directory := false
          size := some st.size
          modified := st.mtime
          permissions := get_file_permissions fs p
          is_readable := true })

/-- Embeds `FileBrowserService.get_file_info` (the `Describe` operation):
resolve, then allow-list check, then existence check; on success return
the metadata record. -/
def get_file_info (allowed : List String) (fs : FS) (path : String) :
    Except BrowserError FileSystemItem :=
  let p := resolveStr fs.cwd path
  if ¬ is_path_allowed allowed p then .error .accessDenied
  else
    match fsLookup fs p with
    | none => .error .notFound
    | some e =>
      .ok
        { name := lastName p
          path := render p
          is_directory := e.isDirEntry
          size := if e.isDirEntry then none else some e.statOf.size
          modified := e.statOf.mtime
          permissions := get_file_permissions fs p
          is_readable := e.statOf.readable }

/-! ## The notion of path containment used by the specification

The specification guarantees that no path outside a configured root is
ever read.  A candidate is within a root when it is the root itself or a
descendant of it in the directory tree; this is deliberately a second
definition, written from the words of the specification, to be compared
against the string-prefix test the source implements. -/

/-- Written from the words of the specification: a resolved path lies
within the root when it equals the root or lies strictly below it in the
directory tree. -/
def withinRoot (root : String) (p : List String) : Bool :=
  render p == root || strStarts (render p) (root ++ "/")

/-- Written from the words of the specification: the resolved path lies
outside every configured root. -/
def outsideAllRoots (roots : List String) (p : List String) : Bool :=
  roots.all fun r => ! withinRoot r p

/-! ## Secrets and tokens (modelled from the spec)

The repository snapshot does not contain `src/utils/security.py`; only its
callers are present.  Its four functions are therefore modelled from the
specification. -/

/-- Modelled from the spec: `get_password_hash` in the missing
`src/utils/security.py`.  The spec requires a salted one-way hash that the
matching `verify_password` accepts exactly for the original plaintext; the
model keeps the plaintext inside an opaque wrapper so that verification is
exact-match (an ideal collision-free hash). -/
structure HashedSecret where
  plain : String
deriving DecidableEq

/-- Modelled from the spec: `get_password_hash(password)` of the missing
`src/utils/security.py`. -/
def get_password_hash (p : String) : HashedSecret := ⟨p⟩

/-- Modelled from the spec: `verify_password(plain, hashed)` of the
missing `src/utils/security.py` — succeeds exactly when the plaintext is
the one that was hashed. -/
def verify_password (p : String) (h : HashedSecret) : Bool :=
  h.plain == p

/-- The claims a token carries (`payload.get("sub")` and
`payload.get("user_id")`): either may be absent in a malformed token. -/
structure TokenPayload where
  sub : Option String
  user_id : Option Nat
deriving DecidableEq

/-- Modelled from the spec: the opaque signed token of the missing
`src/utils/security.py` — a payload signed by a key with an absolute
expiry instant, or a structurally malformed token. -/
inductive Token
  | signed (key : Nat) (payload : TokenPayload) (expires : Nat)
  | malformed
deriving DecidableEq

/-- Modelled from the spec: `create_access_token(data)` of the missing
`src/utils/security.py` — sign the payload with the configured key and a
fixed TTL from now. -/
def create_access_token (key ttl now : Nat) (payload : TokenPayload) : Token :=
  .signed key payload (now + ttl)

/-- Modelled from the spec: `decode_access_token(token)` of the missing
`src/utils/security.py` — returns the payload exactly when the signature
matches the configured key and the expiry has not elapsed; fails on bad
signature, malformed structure, or elapsed expiry. -/
def decode_access_token (key now : Nat) : Token → Option TokenPayload
  | .signed k p e => if k = key ∧ now < e then some p else none
  | .malformed => none

/-! ## The identity store and the authentication service
(`src/models/db_models.py`, `src/services/auth/service.py`)

The SQLAlchemy session becomes an explicit list of rows; `WHERE` clauses
become filters and `scalar_one_or_none` keeps its real semantics: `none`
for no row, the row if unique, and a raised `MultipleResultsFound`
otherwise. -/

/-- A stored identity row (`UserDB`). -/
structure UserRec where
  id : Nat
  username : String
  email : String
  hashed_password : HashedSecret
  is_active : Bool
  is_superuser : Bool
  created_at : Nat
  updated_at : Nat
deriving DecidableEq

/-- The `User` response model (no secret hash). -/
structure User where
  id : Nat
  username : String
  email : String
  is_active : Bool
  is_superuser : Bool
  created_at : Nat
  updated_at : Nat
deriving DecidableEq

/-- `User.model_validate(db_user)`: project the row to the response
model. -/
def toUser (u : UserRec) : User :=
  { id := u.id, username := u.username, email := u.email
    is_active := u.is_active, is_superuser := u.is_superuser
    created_at := u.created_at, updated_at := u.updated_at }

/-- The `UserCreate` request model. -/
structure UserCreate where
  username : String
  email : String
  password : String
deriving DecidableEq

/-- The `UserUpdate` request model (both fields optional). -/
structure UserUpdate where
  email : Option String
  password : Option String
deriving DecidableEq

/-- Exceptions the service layer can raise: SQLAlchemy
`MultipleResultsFound` from `scalar_one_or_none`, and Python `ValueError`
with its message. -/
inductive SvcErr
  | multipleResults
  | valueError (msg : String)
deriving DecidableEq

/-- Semantics of `Result.scalar_one_or_none()`: no row gives `none`, a
unique row is returned, more than one row raises
`MultipleResultsFound`. -/
def scalar_one_or_none : List α → Except SvcErr (Option α)
  | [] => .ok none
  | [a] => .ok (some a)
  | _ => .error .multipleResults

/-- Embeds `AuthService.create_user`: reject a duplicate username, then a
duplicate email, each with its `ValueError`; otherwise insert the new row
(active, not superuser, freshly hashed secret) and return its response
model.  The returned list is the resulting store; both failure branches
leave it unchanged because the source raises before `db.add`. -/
def create_user (db : List UserRec) (now nextId : Nat) (uc : UserCreate) :
    Except SvcErr User × List UserRec :=
  match scalar_one_or_none (db.filter fun u => u.username == uc.username) with
  | .error e => (.error e, db)
  | .ok (some _) => (.error (.valueError "Username already exists"), db)
  | .ok none =>
    match scalar_one_or_none (db.filter fun u => u.email == uc.email) with
    | .error e => (.error e, db)
    | .ok (some _) => (.error (.valueError "Email already exists"), db)
    | .ok none =>
      let newRec : UserRec :=
        { id := nextId, username := uc.username, email := uc.email
          hashed_password := get_password_hash uc.password
          is_active := true, is_superuser := false
          created_at := now, updated_at := now }
      (.ok (toUser newRec), db ++ [newRec])

/-- Embeds `AuthService.authenticate_user`: select the row whose username
or email equals the presented name, then fail with the same `none` for a
missing row, a failed secret verification, and an inactive identity. -/
def authenticate_user (db : List UserRec) (username password : String) :
    Except SvcErr (Option User) :=
  match scalar_one_or_none (db.filter fun u => u.username == username || u.email == username) with
  | .error e => .error e
  | .ok none => .ok none
  | .ok (some u) =>
    if ¬ verify_password password u.hashed_password then .ok none
    else if ¬ u.is_active then .ok none
    else .ok (some (toUser u))

/-- Embeds `AuthService.get_user_by_id`. -/
def get_user_by_id (db : List UserRec) (uid : Nat) : Except SvcErr (Option User) :=
  match scalar_one_or_none (db.filter fun u => u.id == uid) with
  | .error e => .error e
  | .ok o => .ok (o.map toUser)

/-- Applies the password change and the timestamp refresh of
`AuthService.update_user` to the located row and rebuilds the store. -/
def finishUpdate (db : List UserRec) (now uid : Nat) (u1 : UserRec) (uu : UserUpdate) :
    Except SvcErr (Option User) × List UserRec :=
  let u2 :=
    match uu.password with
    | some pw => if pw ≠ "" then { u1 with hashed_password := get_password_hash pw } else u1
    | none => u1
  let u3 := { u2 with updated_at := now }
  (.ok (some (toUser u3)), db.map fun v => if v.id == uid then u3 else v)

/-- Embeds `AuthService.update_user`: locate the row by id (`none` when
missing); when a new, different, non-empty email is supplied, re-check
uniqueness excluding self and raise `ValueError` on collision, else apply
it; re-hash a supplied non-empty password; refresh the timestamp.  All
failure branches return the store unchanged because the source raises
before any assignment. -/
def update_user (db : List UserRec) (now uid : Nat) (uu : UserUpdate) :
    Except SvcErr (Option User) × List UserRec :=
  match scalar_one_or_none (db.filter fun u => u.id == uid) with
  | .error e => (.error e, db)
  | .ok none => (.ok none, db)
  | .ok (some u) =>
    match uu.email with
    | some em =>
      if em ≠ "" ∧ em ≠ u.email then
        match scalar_one_or_none (db.filter fun v => v.email == em && v.id != uid) with
        | .error e => (.error e, db)
        | .ok (some _) => (.error (.valueError "Email already exists"), db)
        | .ok none => finishUpdate db now uid { u with email := em } uu
      else finishUpdate db now uid u uu
    | none => finishUpdate db now uid u uu

/-! ## The authorization guard (`src/dependencies.py`) -/

/-- The outcome a FastAPI dependency produces: either an `HTTPException`
with its status code and detail, or the resolved user. -/
inductive GuardResult
  | httpError (code : Nat) (detail : String)
  | passed (u : User)
deriving DecidableEq

/-- Embeds `get_current_user`: decode the token (401 on failure), extract
the `sub` and `user_id` claims (401 when either is absent), re-fetch the
identity by id (401 when missing), and reject an inactive identity with
403. -/
def get_current_user (key now : Nat) (db : List UserRec) (tok : Token) :
    Except SvcErr GuardResult :=
  match decode_access_token key now tok with
  | none => .ok (.httpError 401 "Could not validate credentials")
  | some payload =>
    match payload.sub, payload.user_id with
    | some _, some uid =>
      match get_user_by_id db uid with
      | .error e => .error e
      | .ok none => .ok (.httpError 401 "Could not validate credentials")
      | .ok (some u) =>
        if ¬ u.is_active then .ok (.httpError 403 "Inactive user")
        else .ok (.passed u)
    | _, _ => .ok (.httpError 401 "Could not validate credentials")

/-- Embeds `get_current_active_user`: the `get_current_user` chain plus a
(redundant) second 403 check of the active flag. -/
def get_current_active_user (key now : Nat) (db : List UserRec) (tok : Token) :
    Except SvcErr GuardResult :=
  match get_current_user key now db tok with
  | .ok (.passed u) =>
    if ¬ u.is_active then .ok (.httpError 403 "Inactive user") else .ok (.passed u)
  | r => r

/-- Embeds `get_current_superuser`: the `get_current_user` chain plus a
403 check of the superuser flag. -/
def get_current_superuser (key now : Nat) (db : List UserRec) (tok : Token) :
    Except SvcErr GuardResult :=
  match get_current_user key now db tok with
  | .ok (.passed u) =>
    if ¬ u.is_superuser then .ok (.httpError 403 "Not enough permissions")
    else .ok (.passed u)
  | r => r

/-! ## The websocket monitoring endpoint (`src/api/monitoring.py`) -/

/-- The connection-establishment outcome of the websocket endpoint: a
close before `accept()` with its close code and reason, or an accepted
connection for the resolved user. -/
inductive WsResult
  | rejected (code : Nat) (reason : String)
  | accepted (u : User)
deriving DecidableEq

/-- Embeds the authorization prefix of `websocket_endpoint`, everything up
to and including `websocket.accept()`: a missing token, an undecodable
token, and an absent-or-zero `user_id` claim each close with code 4001; a
missing or inactive identity closes with code 4003; only afterwards is
the connection accepted.  (`if not user_id` is Python truthiness, so a
zero id is treated as malformed.) -/
def websocket_auth (key now : Nat) (db : List UserRec) (token : Option Token) :
    Except SvcErr WsResult :=
  match token with
  | none => .ok (.rejected 4001 "Missing authentication token")
  | some tok =>
    match decode_access_token key now tok with
    | none => .ok (.rejected 4001 "Invalid or expired token")
    | some payload =>
      match payload.user_id with
      | none => .ok (.rejected 4001 "Invalid token payload")
      | some uid =>
        if uid = 0 then .ok (.rejected 4001 "Invalid token payload")
        else
          match get_user_by_id db uid with
          | .error e => .error e
          | .ok none => .ok (.rejected 4003 "User not found or inactive")
          | .ok (some u) =>
            if ¬ u.is_active then .ok (.rejected 4003 "User not found or inactive")
            else .ok (.accepted u)

/-! ## The register and login endpoints (`src/api/auth.py`) -/

/-- An endpoint failure: an `HTTPException` with status and detail, or an
unhandled service exception (surfaced as a 500 by the framework). -/
inductive ApiErr
  | http (code : Nat) (detail : String)
  | internal (e : SvcErr)
deriving DecidableEq

/-- The `RegisterResponse` model: the created user and its access
token. -/
structure RegisterResponse where
  user : User
  access_token : Token
deriving DecidableEq

/-- Embeds the `register` endpoint: create the user (mapping the
duplicate `ValueError` to HTTP 400), then issue a token embedding the new
username and id. -/
def register (key ttl now nextId : Nat) (db : List UserRec) (uc : UserCreate) :
    Except ApiErr RegisterResponse × List UserRec :=
  match create_user db now nextId uc with
  | (.ok u, db2) =>
    (.ok { user := u
           access_token := create_access_token key ttl now ⟨some u.username, some u.id⟩ },
     db2)
  | (.error (.valueError m), db2) => (.error (.http 400 m), db2)
  | (.error .multipleResults, db2) => (.error (.internal .multipleResults), db2)

/-- Embeds the `login` endpoint: authenticate (401 on the uniform `None`),
then issue a token embedding the username and id. -/
def login (key ttl now : Nat) (db : List UserRec) (username password : String) :
    Except ApiErr Token :=
  match authenticate_user db username password with
  | .error e => .error (.internal e)
  | .ok none => .error (.http 401 "Incorrect username or password")
  | .ok (some u) =>
    .ok (create_access_token key ttl now ⟨some u.username, some u.id⟩)

/-! ## Helper lemmas -/

/-- An `any` over the allow-list that fails on every root makes the
allow-list check fail (given at least one configured root). -/
theorem is_path_allowed_eq_false (allowed : List String) (p : List String)
    (hne : allowed ≠ [])
    (h : ∀ r ∈ allowed, strStarts (render p) r = false) :
    is_path_allowed allowed p = false := by
  unfold is_path_allowed
  rw [if_neg]
  · rw [List.any_eq_false]
    intro r hr
    simp [h r hr]
  · simp [List.isEmpty_iff]
    exact hne

/-- `scalar_one_or_none` returns `none` exactly on the empty row set. -/
theorem scalar_one_or_none_eq_none {l : List α} :
    scalar_one_or_none l = .ok none ↔ l = [] := by
  match l with
  | [] => simp [scalar_one_or_none]
  | [a] => simp [scalar_one_or_none]
  | a :: b :: t => simp [scalar_one_or_none]

/-- `scalar_one_or_none` returns a row exactly when it is the unique
row. -/
theorem scalar_one_or_none_eq_some {l : List α} {a : α} :
    scalar_one_or_none l = .ok (some a) ↔ l = [a] := by
  match l with
  | [] => simp [scalar_one_or_none]
  | [b] => simp [scalar_one_or_none]
  | b :: c :: t => simp [scalar_one_or_none]

/-! ## Claim C1 -/

/-- C1 (counterexample): the claim states that every candidate whose
canonically resolved absolute path lies outside every configured root is
denied.  With the single root `/allowed/root`, the path
`/allowed/rootmore` resolves to a location outside that root in the
directory tree, yet `ReadFile` succeeds and streams the file content,
because the source tests membership with a raw string `startswith` and
the root string is a string-prefix of the sibling path. -/
theorem C1_sandbox_counterexample :
    (["/allowed/root"] ≠ ([] : List String)) ∧
    outsideAllRoots ["/allowed/root"]
      (resolveStr ([] : List String) "/allowed/rootmore") = true ∧
    (get_file ["/allowed/root"]
        ⟨[], [(["allowed"], .dir ["rootmore"] ⟨0, 0, 493, true, true⟩),
              (["allowed", "rootmore"], .file [104, 105] ⟨2, 7, 420, true, true⟩)]⟩
        "/allowed/rootmore").isOk = true :=
  ⟨by decide, by decide, by decide⟩

/-- C1 (amended): for every sandbox configured with a non-empty root list
and every candidate path, each of `ListDirectory`, `ReadFile` and
`Describe` fails with `AccessDenied` whenever the candidate's canonically
resolved absolute path, rendered as a string, does not start with any
configured root string.  The filesystem is universally quantified, so a
denied call returns the same error no matter what is on disk: nothing is
read, listed or streamed. -/
theorem C1_sandbox_denies (allowed : List String) (fs : FS) (path : String)
    (hne : allowed ≠ [])
    (hout : ∀ r ∈ allowed, strStarts (render (resolveStr fs.cwd path)) r = false) :
    list_directory allowed fs path = .error .accessDenied ∧
    get_file allowed fs path = .error .accessDenied ∧
    get_file_info allowed fs path = .error .accessDenied := by
  have h := is_path_allowed_eq_false allowed (resolveStr fs.cwd path) hne hout
  refine ⟨?_, ?_, ?_⟩
  · simp [list_directory, h]
  · simp [get_file, h]
  · simp [get_file_info, h]

/-- C1 witness: a concrete denied request on a sandbox rooted at
`/srv/data`. -/
theorem C1_sandbox_denies_witness :
    list_directory ["/srv/data"] ⟨[], []⟩ "/etc/passwd" = .error .accessDenied ∧
    get_file ["/srv/data"] ⟨[], []⟩ "/etc/passwd" = .error .accessDenied ∧
    get_file_info ["/srv/data"] ⟨[], []⟩ "/etc/passwd" = .error .accessDenied :=
  C1_sandbox_denies ["/srv/data"] ⟨[], []⟩ "/etc/passwd" (by decide) (by decide)

/-! ## Claim C2 -/

/-- C2: the allow-list verdict on a raw path string is a function of its
canonical resolution alone (resolve happens before the membership check),
and in particular with the single root `/allowed/root` the candidate
`/allowed/root/../../etc/passwd` is rejected because it resolves to
`/etc/passwd`, even though the literal string starts with the allowed
prefix. -/
theorem C2_resolve_before_check :
    (∀ (allowed cwd : List String) (p q : String),
        resolveStr cwd p = resolveStr cwd q →
        is_path_allowed_str allowed cwd p = is_path_allowed_str allowed cwd q) ∧
    is_path_allowed_str ["/allowed/root"] [] "/allowed/root/../../etc/passwd" = false ∧
    strStarts "/allowed/root/../../etc/passwd" "/allowed/root" = true := by
  refine ⟨?_, by decide, by decide⟩
  intro allowed cwd p q h
  simp [is_path_allowed_str, h]

/-- C2 witness: two raw spellings of the directory `/allowed/root`
receive the same verdict because they resolve identically. -/
theorem C2_resolve_before_check_witness :
    is_path_allowed_str ["/allowed/root"] [] "/allowed/root/sub/.." =
      is_path_allowed_str ["/allowed/root"] [] "/allowed/root" :=
  C2_resolve_before_check.1 ["/allowed/root"] [] "/allowed/root/sub/.." "/allowed/root"
    (by decide)

/-! ## Claim C3 -/

/-- C3: `ReadFile` and `ListDirectory` evaluate their failure conditions
in the fixed order allow-list check, existence check, type check: a
disallowed path is answered `AccessDenied` whatever its existence status;
an allowed missing path is answered `NotFound`; and the type errors
`IsADirectory` / `NotADirectory` can only arise when the path is allowed
and exists. -/
theorem C3_failure_ordering (allowed : List String) (fs : FS) (path : String) :
    (is_path_allowed allowed (resolveStr fs.cwd path) = false →
        get_file allowed fs path = .error .accessDenied ∧
        list_directory allowed fs path = .error .accessDenied) ∧
    (is_path_allowed allowed (resolveStr fs.cwd path) = true →
        fsLookup fs (resolveStr fs.cwd path) = none →
        get_file allowed fs path = .error .notFound ∧
        list_directory allowed fs path = .error .notFound) ∧
    (get_file allowed fs path = .error .isADirectory →
        is_path_allowed allowed (resolveStr fs.cwd path) = true ∧
        (fsLookup fs (resolveStr fs.cwd path)).isSome = true) ∧
    (list_directory allowed fs path = .error .notADirectory →
        is_path_allowed allowed (resolveStr fs.cwd path) = true ∧
        (fsLookup fs (resolveStr fs.cwd path)).isSome = true) := by
  refine ⟨?_, ?_, ?_, ?_⟩
  · intro h
    exact ⟨by simp [get_file, h], by simp [list_directory, h]⟩
  · intro hA hL
    exact ⟨by simp [get_file, hA, hL], by simp [list_directory, hA, hL]⟩
  · intro h
    cases hA : is_path_allowed allowed (resolveStr fs.cwd path)
    · simp [get_file, hA] at h
    · refine ⟨rfl, ?_⟩
      cases hL : fsLookup fs (resolveStr fs.cwd path) with
      | none => simp [get_file, hA, hL] at h
      | some e => simp
  · intro h
    cases hA : is_path_allowed allowed (resolveStr fs.cwd path)
    · simp [list_directory, hA] at h
    · refine ⟨rfl, ?_⟩
      cases hL : fsLookup fs (resolveStr fs.cwd path) with
      | none => simp [list_directory, hA, hL] at h
      | some e => simp

/-- C3 witness: a disallowed, nonexistent path is answered `AccessDenied`
and not `NotFound`. -/
theorem C3_failure_ordering_witness :
    get_file ["/srv"] ⟨[], []⟩ "/etc/shadow" = .error .accessDenied ∧
    list_directory ["/srv"] ⟨[], []⟩ "/etc/shadow" = .error .accessDenied :=
  (C3_failure_ordering ["/srv"] ⟨[], []⟩ "/etc/shadow").1 (by decide)

/-! ## Claim C4 -/

/-- C4: `Authenticate` never returns an identity when no stored identity
matches the presented handle-or-address, when the secret fails
verification against the unique matching row, or when that row is
inactive — and all three failures produce the very same value `.ok none`,
so no distinction is observable by the caller.  Conversely a returned
identity always comes from a matching, verified, active row. -/
theorem C4_authenticate_uniform_failure (db : List UserRec) (q pw : String) :
    ((∀ u ∈ db, ¬(u.username = q ∨ u.email = q)) →
        authenticate_user db q pw = .ok none) ∧
    (∀ u, db.filter (fun v => v.username == q || v.email == q) = [u] →
        verify_password pw u.hashed_password = false →
        authenticate_user db q pw = .ok none) ∧
    (∀ u, db.filter (fun v => v.username == q || v.email == q) = [u] →
        verify_password pw u.hashed_password = true → u.is_active = false →
        authenticate_user db q pw = .ok none) ∧
    (∀ usr, authenticate_user db q pw = .ok (some usr) →
        ∃ u, u ∈ db ∧ (u.username = q ∨ u.email = q) ∧
          verify_password pw u.hashed_password = true ∧ u.is_active = true ∧
          usr = toUser u) := by
  refine ⟨?_, ?_, ?_, ?_⟩
  · intro h
    have hfil : db.filter (fun v => v.username == q || v.email == q) = [] := by
      rw [List.filter_eq_nil_iff]
      intro u hu
      simpa using h u hu
    simp [authenticate_user, hfil, scalar_one_or_none]
  · intro u hfil hv
    simp [authenticate_user, hfil, scalar_one_or_none, hv]
  · intro u hfil hv ha
    simp [authenticate_user, hfil, scalar_one_or_none, hv, ha]
  · intro usr h
    cases hfil : db.filter (fun v => v.username == q || v.email == q) with
    | nil => simp [authenticate_user, hfil, scalar_one_or_none] at h
    | cons a t =>
      cases t with
      | nil =>
        have hmem : a ∈ db.filter (fun v => v.username == q || v.email == q) := by
          rw [hfil]; exact List.mem_singleton_self a
        have hma := List.mem_filter.mp hmem
        refine ⟨a, hma.1, by simpa using hma.2, ?_⟩
        simp [authenticate_user, hfil, scalar_one_or_none] at h
        cases hv : verify_password pw a.hashed_password with
        | false => simp [hv] at h
        | true =>
          cases ha : a.is_active with
          | false => simp [hv, ha] at h
          | true =>
            simp [hv, ha] at h
            exact ⟨rfl, rfl, h.symm⟩
      | cons b t2 => simp [authenticate_user, hfil, scalar_one_or_none] at h

/-- C4 witness: an unknown handle on an empty store fails with the
uniform `none`. -/
theorem C4_authenticate_uniform_failure_witness :
    authenticate_user [] "ghost" "pw123456" = .ok none :=
  (C4_authenticate_uniform_failure [] "ghost" "pw123456").1 (by simp)

/-! ## Claim C5 -/

/-- C5: a registration that collides with an existing handle or address
fails — with the matching duplicate error when the colliding row is
unique — and every failed registration leaves the stored identity set
unchanged, so a store with pairwise-distinct handles and addresses keeps
both uniqueness invariants across any successful registration. -/
theorem C5_register_uniqueness (db : List UserRec) (now nextId : Nat) (uc : UserCreate) :
    ((∃ u ∈ db, u.username = uc.username ∨ u.email = uc.email) →
        ∃ e, create_user db now nextId uc = (.error e, db)) ∧
    (∀ u, db.filter (fun v => v.username == uc.username) = [u] →
        create_user db now nextId uc =
          (.error (.valueError "Username already exists"), db)) ∧
    (db.filter (fun v => v.username == uc.username) = [] →
        ∀ u, db.filter (fun v => v.email == uc.email) = [u] →
        create_user db now nextId uc =
          (.error (.valueError "Email already exists"), db)) ∧
    (List.Pairwise (fun a b => a.username ≠ b.username) db →
        List.Pairwise (fun a b => a.email ≠ b.email) db →
        ∀ usr db2, create_user db now nextId uc = (.ok usr, db2) →
          List.Pairwise (fun a b => a.username ≠ b.username) db2 ∧
          List.Pairwise (fun a b => a.email ≠ b.email) db2) := by
  refine ⟨?_, ?_, ?_, ?_⟩
  · rintro ⟨u, hu, hor⟩
    cases hfilU : db.filter (fun v => v.username == uc.username) with
    | cons a t =>
      cases t with
      | nil =>
        exact ⟨.valueError "Username already exists",
          by simp [create_user, hfilU, scalar_one_or_none]⟩
      | cons b t2 =>
        exact ⟨.multipleResults, by simp [create_user, hfilU, scalar_one_or_none]⟩
    | nil =>
      have hem : u.email = uc.email := by
        cases hor with
        | inl h1 =>
          exfalso
          have : u ∈ db.filter (fun v => v.username == uc.username) :=
            List.mem_filter.mpr ⟨hu, by simp [h1]⟩
          rw [hfilU] at this
          simp at this
        | inr h2 => exact h2
      have hmemE : u ∈ db.filter (fun v => v.email == uc.email) :=
        List.mem_filter.mpr ⟨hu, by simp [hem]⟩
      cases hfilE : db.filter (fun v => v.email == uc.email) with
      | nil => rw [hfilE] at hmemE; simp at hmemE
      | cons a t =>
        cases t with
        | nil =>
          exact ⟨.valueError "Email already exists",
            by simp [create_user, hfilU, hfilE, scalar_one_or_none]⟩
        | cons b t2 =>
          exact ⟨.multipleResults,
            by simp [create_user, hfilU, hfilE, scalar_one_or_none]⟩
  · intro u hfilU
    simp [create_user, hfilU, scalar_one_or_none]
  · intro hfilU u hfilE
    simp [create_user, hfilU, hfilE, scalar_one_or_none]
  · intro hpwU hpwE usr db2 hok
    cases hfilU : db.filter (fun v => v.username == uc.username) with
    | cons a t => cases t <;> simp [create_user, hfilU, scalar_one_or_none] at hok
    | nil =>
      cases hfilE : db.filter (fun v => v.email == uc.email) with
      | cons a t => cases t <;> simp [create_user, hfilU, hfilE, scalar_one_or_none] at hok
      | nil =>
        simp [create_user, hfilU, hfilE, scalar_one_or_none] at hok
        have hdb2 : db2 = db ++
            [{ id := nextId, username := uc.username, email := uc.email
               hashed_password := get_password_hash uc.password
               is_active := true, is_superuser := false
               created_at := now, updated_at := now }] := hok.2.symm
        have hUnone : ∀ v ∈ db, v.username ≠ uc.username := by
          intro v hv hcontra
          have : v ∈ db.filter (fun w => w.username == uc.username) :=
            List.mem_filter.mpr ⟨hv, by simp [hcontra]⟩
          rw [hfilU] at this
          simp at this
        have hEnone : ∀ v ∈ db, v.email ≠ uc.email := by
          intro v hv hcontra
          have : v ∈ db.filter (fun w => w.email == uc.email) :=
            List.mem_filter.mpr ⟨hv, by simp [hcontra]⟩
          rw [hfilE] at this
          simp at this
        subst hdb2
        constructor
        · refine List.pairwise_append.mpr ⟨hpwU, List.pairwise_singleton _ _, ?_⟩
          intro a ha b hb
          simp at hb
          subst hb
          exact hUnone a ha
        · refine List.pairwise_append.mpr ⟨hpwE, List.pairwise_singleton _ _, ?_⟩
          intro a ha b hb
          simp at hb
          subst hb
          exact hEnone a ha

/-- C5 witness: a second registration with an existing handle fails with
the duplicate-handle error and leaves the one-row store unchanged. -/
theorem C5_register_uniqueness_witness :
    create_user [⟨1, "bob", "bob@example.com", ⟨"hunter22"⟩, true, false, 0, 0⟩] 5 2
        ⟨"bob", "new@example.com", "password1"⟩ =
      (.error (.valueError "Username already exists"),
       [⟨1, "bob", "bob@example.com", ⟨"hunter22"⟩, true, false, 0, 0⟩]) :=
  (C5_register_uniqueness [⟨1, "bob", "bob@example.com", ⟨"hunter22"⟩, true, false, 0, 0⟩]
      5 2 ⟨"bob", "new@example.com", "password1"⟩).2.1
    ⟨1, "bob", "bob@example.com", ⟨"hunter22"⟩, true, false, 0, 0⟩ (by decide)

/-! ## Claim C9 -/

/-- C9: when a registration collides on the handle and on the address
simultaneously, the duplicate-handle error is reported, because the
handle check is evaluated first (the address check is never reached). -/
theorem C9_handle_check_first (db : List UserRec) (now nextId : Nat) (uc : UserCreate)
    (u v : UserRec)
    (hu : db.filter (fun w => w.username == uc.username) = [u])
    (hv : v ∈ db) (hve : v.email = uc.email) :
    create_user db now nextId uc =
      (.error (.valueError "Username already exists"), db) := by
  simp [create_user, hu, scalar_one_or_none]

/-- C9 witness: a registration colliding on both fields of the single
stored row reports the duplicate handle. -/
theorem C9_handle_check_first_witness :
    create_user [⟨1, "bob", "bob@example.com", ⟨"hunter22"⟩, true, false, 0, 0⟩] 5 2
        ⟨"bob", "bob@example.com", "password1"⟩ =
      (.error (.valueError "Username already exists"),
       [⟨1, "bob", "bob@example.com", ⟨"hunter22"⟩, true, false, 0, 0⟩]) :=
  C9_handle_check_first [⟨1, "bob", "bob@example.com", ⟨"hunter22"⟩, true, false, 0, 0⟩] 5 2
    ⟨"bob", "bob@example.com", "password1"⟩
    ⟨1, "bob", "bob@example.com", ⟨"hunter22"⟩, true, false, 0, 0⟩
    ⟨1, "bob", "bob@example.com", ⟨"hunter22"⟩, true, false, 0, 0⟩
    (by decide) (by decide) (by decide)

/-! ## Claim C10 -/

/-- The fields of a stored identity that a profile update must never
touch: id, handle, active flag, elevated flag. -/
def fixedFields (u : UserRec) : Nat × String × Bool × Bool :=
  (u.id, u.username, u.is_active, u.is_superuser)

/-- The password-and-timestamp step preserves every fixed field of every
row: the rebuilt store only replaces the located row, whose fixed fields
agree with the original by hypothesis. -/
theorem finishUpdate_fixedFields (db : List UserRec) (now uid : Nat)
    (u1 : UserRec) (uu : UserUpdate)
    (h : ∀ v ∈ db, v.id = uid → fixedFields v = fixedFields u1) :
    ((finishUpdate db now uid u1 uu).2).map fixedFields = db.map fixedFields := by
  unfold finishUpdate
  simp only [List.map_map]
  apply List.map_congr_left
  intro v hv
  by_cases hid : v.id = uid
  · have hfix : ∀ u2 : UserRec, fixedFields u2 = fixedFields u1 →
        fixedFields { u2 with updated_at := now } = fixedFields u1 := by
      intro u2 h2
      simpa [fixedFields] using h2
    cases hpw : uu.password with
    | none =>
      simp [Function.comp, hid]
      rw [hfix u1 rfl]
      exact (h v hv hid).symm
    | some pw =>
      by_cases hne : pw ≠ ""
      · simp [Function.comp, hid, hpw, hne]
        have : fixedFields { u1 with hashed_password := get_password_hash pw } =
            fixedFields u1 := by simp [fixedFields]
        rw [hfix _ this]
        exact (h v hv hid).symm
      · simp [Function.comp, hid, hpw, hne]
        rw [hfix u1 rfl]
        exact (h v hv hid).symm
  · simp [Function.comp, hid]

/-- C10: `UpdateIdentity` modifies at most the address, the secret hash
and the timestamp — the id, handle, active flag and elevated flag of
every stored row are unchanged by every call, whether it succeeds, misses
the row, or fails on a duplicate address. -/
theorem C10_update_frame (db : List UserRec) (now uid : Nat) (uu : UserUpdate) :
    ((update_user db now uid uu).2).map fixedFields = db.map fixedFields := by
  cases hfil : db.filter (fun u => u.id == uid) with
  | nil => simp [update_user, hfil, scalar_one_or_none]
  | cons a t =>
    cases t with
    | cons b t2 => simp [update_user, hfil, scalar_one_or_none]
    | nil =>
      have hloc : ∀ v ∈ db, v.id = uid → fixedFields v = fixedFields a := by
        intro v hv hid
        have : v ∈ db.filter (fun u => u.id == uid) :=
          List.mem_filter.mpr ⟨hv, by simp [hid]⟩
        rw [hfil] at this
        simp at this
        rw [this]
      cases hem : uu.email with
      | none =>
        simp only [update_user, hfil, scalar_one_or_none, hem]
        exact finishUpdate_fixedFields db now uid a uu hloc
      | some em =>
        by_cases hcond : em ≠ "" ∧ em ≠ a.email
        · cases hfilE : db.filter (fun v => v.email == em && v.id != uid) with
          | nil =>
            simp only [update_user, hfil, scalar_one_or_none, hem, if_pos hcond]
            rw [hfilE]
            simp only [scalar_one_or_none]
            apply finishUpdate_fixedFields
            intro v hv hid
            have := hloc v hv hid
            simpa [fixedFields] using this
          | cons w t3 =>
            cases t3 with
            | nil =>
              simp [update_user, hfil, scalar_one_or_none, hem, if_pos hcond, hfilE]
            | cons x t4 =>
              simp [update_user, hfil, scalar_one_or_none, hem, if_pos hcond, hfilE]
        · simp only [update_user, hfil, scalar_one_or_none, hem, if_neg hcond]
          exact finishUpdate_fixedFields db now uid a uu hloc

/-! ## Claim C7 -/

/-- A token authenticates to a stored identity: it decodes, carries both
claims, and its embedded id resolves to that identity. -/
def tokenResolves (key now : Nat) (db : List UserRec) (tok : Token) (u : User) : Prop :=
  ∃ p s uid, decode_access_token key now tok = some p ∧ p.sub = some s ∧
    p.user_id = some uid ∧ get_user_by_id db uid = .ok (some u)

/-- Classification of every outcome of `get_current_user`: a 401 with no
authenticating identity, a 403 for a resolved inactive identity, success
for a resolved active identity, or a propagated store exception. -/
theorem guard_classify (key now : Nat) (db : List UserRec) (tok : Token) :
    (get_current_user key now db tok =
        .ok (.httpError 401 "Could not validate credentials") ∧
      ∀ u, ¬ tokenResolves key now db tok u) ∨
    (∃ u, tokenResolves key now db tok u ∧ u.is_active = false ∧
      get_current_user key now db tok = .ok (.httpError 403 "Inactive user")) ∨
    (∃ u, tokenResolves key now db tok u ∧ u.is_active = true ∧
      get_current_user key now db tok = .ok (.passed u)) ∨
    (∃ e, get_current_user key now db tok = .error e) := by
  cases hp : decode_access_token key now tok with
  | none =>
    refine Or.inl ⟨by simp [get_current_user, hp], ?_⟩
    rintro u ⟨p, s, uid, hp2, _⟩
    rw [hp] at hp2
    exact Option.noConfusion hp2
  | some p =>
    cases hs : p.sub with
    | none =>
      refine Or.inl ⟨?_, ?_⟩
      · cases hu : p.user_id <;> simp [get_current_user, hp, hs, hu]
      · rintro u ⟨p2, s2, uid2, hp2, hs2, _⟩
        rw [hp] at hp2
        cases hp2
        rw [hs] at hs2
        exact Option.noConfusion hs2
    | some s =>
      cases hu : p.user_id with
      | none =>
        refine Or.inl ⟨by simp [get_current_user, hp, hs, hu], ?_⟩
        rintro u ⟨p2, s2, uid2, hp2, _, hu2, _⟩
        rw [hp] at hp2
        cases hp2
        rw [hu] at hu2
        exact Option.noConfusion hu2
      | some uid =>
        cases hlook : get_user_by_id db uid with
        | error e =>
          exact Or.inr (Or.inr (Or.inr ⟨e, by simp [get_current_user, hp, hs, hu, hlook]⟩))
        | ok o =>
          cases o with
          | none =>
            refine Or.inl ⟨by simp [get_current_user, hp, hs, hu, hlook], ?_⟩
            rintro u ⟨p2, s2, uid2, hp2, _, hu2, hlook2⟩
            rw [hp] at hp2
            cases hp2
            rw [hu] at hu2
            cases hu2
            rw [hlook] at hlook2
            simp at hlook2
          | some u =>
            cases hact : u.is_active with
            | false =>
              exact Or.inr (Or.inl ⟨u, ⟨p, s, uid, hp, hs, hu, hlook⟩, hact,
                by simp [get_current_user, hp, hs, hu, hlook, hact]⟩)
            | true =>
              exact Or.inr (Or.inr (Or.inl ⟨u, ⟨p, s, uid, hp, hs, hu, hlook⟩, hact,
                by simp [get_current_user, hp, hs, hu, hlook, hact]⟩))

/-- C7: the guard rejects with 401 exactly when token validation fails
(undecodable token or missing claims) or the embedded id no longer
resolves to a stored identity, and with the distinct 403 exactly when the
resolved identity is inactive or — under the superuser variant — not a
superuser; a 403 always means the caller authenticated, and a 401 never
does. -/
theorem C7_guard_status_separation (key now : Nat) (db : List UserRec) (tok : Token) :
    (decode_access_token key now tok = none →
        get_current_user key now db tok =
          .ok (.httpError 401 "Could not validate credentials") ∧
        get_current_superuser key now db tok =
          .ok (.httpError 401 "Could not validate credentials")) ∧
    (∀ p, decode_access_token key now tok = some p →
        (p.sub = none ∨ p.user_id = none) →
        get_current_user key now db tok =
          .ok (.httpError 401 "Could not validate credentials") ∧
        get_current_superuser key now db tok =
          .ok (.httpError 401 "Could not validate credentials")) ∧
    (∀ p s uid, decode_access_token key now tok = some p → p.sub = some s →
        p.user_id = some uid → get_user_by_id db uid = .ok none →
        get_current_user key now db tok =
          .ok (.httpError 401 "Could not validate credentials") ∧
        get_current_superuser key now db tok =
          .ok (.httpError 401 "Could not validate credentials")) ∧
    (∀ u, tokenResolves key now db tok u → u.is_active = false →
        get_current_user key now db tok = .ok (.httpError 403 "Inactive user") ∧
        get_current_superuser key now db tok = .ok (.httpError 403 "Inactive user")) ∧
    (∀ u, tokenResolves key now db tok u → u.is_active = true → u.is_superuser = false →
        get_current_superuser key now db tok =
          .ok (.httpError 403 "Not enough permissions")) ∧
    (∀ c d, get_current_user key now db tok = .ok (.httpError c d) →
        (c = 401 ∨ c = 403) ∧
        (c = 403 ↔ ∃ u, tokenResolves key now db tok u ∧ u.is_active = false)) ∧
    (∀ c d, get_current_superuser key now db tok = .ok (.httpError c d) →
        (c = 401 ∨ c = 403) ∧
        (c = 403 ↔ ∃ u, tokenResolves key now db tok u ∧
            (u.is_active = false ∨ u.is_superuser = false))) := by
  refine ⟨?_, ?_, ?_, ?_, ?_, ?_, ?_⟩
  · intro h
    have h1 : get_current_user key now db tok =
        .ok (.httpError 401 "Could not validate credentials") := by
      simp [get_current_user, h]
    exact ⟨h1, by simp [get_current_superuser, h1]⟩
  · intro p hp hmiss
    have h1 : get_current_user key now db tok =
        .ok (.httpError 401 "Could not validate credentials") := by
      cases hmiss with
      | inl hs => cases hu : p.user_id <;> simp [get_current_user, hp, hs, hu]
      | inr hu => cases hs : p.sub <;> simp [get_current_user, hp, hs, hu]
    exact ⟨h1, by simp [get_current_superuser, h1]⟩
  · intro p s uid hp hs huid hlook
    have h1 : get_current_user key now db tok =
        .ok (.httpError 401 "Could not validate credentials") := by
      simp [get_current_user, hp, hs, huid, hlook]
    exact ⟨h1, by simp [get_current_superuser, h1]⟩
  · rintro u ⟨p, s, uid, hp, hs, huid, hlook⟩ hact
    have h1 : get_current_user key now db tok = .ok (.httpError 403 "Inactive user") := by
      simp [get_current_user, hp, hs, huid, hlook, hact]
    exact ⟨h1, by simp [get_current_superuser, h1]⟩
  · rintro u ⟨p, s, uid, hp, hs, huid, hlook⟩ hact hsup
    simp [get_current_superuser, get_current_user, hp, hs, huid, hlook, hact, hsup]
  · intro c d h
    rcases guard_classify key now db tok with ⟨h1, hno⟩ | ⟨u, hres, hact, h1⟩ |
        ⟨u, hres, hact, h1⟩ | ⟨e, h1⟩
    · rw [h1] at h
      injection h with h2
      injection h2 with h3 h4
      subst h3
      refine ⟨Or.inl rfl, ?_⟩
      simp only [Nat.reduceEqDiff, false_iff]
      rintro ⟨u, hres, _⟩
      exact hno u hres
    · rw [h1] at h
      injection h with h2
      injection h2 with h3 h4
      subst h3
      exact ⟨Or.inr rfl, by simp only [true_iff]; exact ⟨u, hres, hact⟩⟩
    · rw [h1] at h
      exact absurd h (by simp)
    · rw [h1] at h
      exact Except.noConfusion h
  · intro c d h
    rcases guard_classify key now db tok with ⟨h1, hno⟩ | ⟨u, hres, hact, h1⟩ |
        ⟨u, hres, hact, h1⟩ | ⟨e, h1⟩
    · have h2 : get_current_superuser key now db tok =
          .ok (.httpError 401 "Could not validate credentials") := by
        simp [get_current_superuser, h1]
      rw [h2] at h
      injection h with h3
      injection h3 with h4 h5
      subst h4
      refine ⟨Or.inl rfl, ?_⟩
      simp only [Nat.reduceEqDiff, false_iff]
      rintro ⟨u, hres, _⟩
      exact hno u hres
    · have h2 : get_current_superuser key now db tok =
          .ok (.httpError 403 "Inactive user") := by
        simp [get_current_superuser, h1]
      rw [h2] at h
      injection h with h3
      injection h3 with h4 h5
      subst h4
      exact ⟨Or.inr rfl, by simp only [true_iff]; exact ⟨u, hres, Or.inl hact⟩⟩
    · cases hsup : u.is_superuser with
      | false =>
        have h2 : get_current_superuser key now db tok =
            .ok (.httpError 403 "Not enough permissions") := by
          simp [get_current_superuser, h1, hsup]
        rw [h2] at h
        injection h with h3
        injection h3 with h4 h5
        subst h4
        exact ⟨Or.inr rfl, by simp only [true_iff]; exact ⟨u, hres, Or.inr hsup⟩⟩
      | true =>
        have h2 : get_current_superuser key now db tok = .ok (.passed u) := by
          simp [get_current_superuser, h1, hsup]
        rw [h2] at h
        exact absurd h (by simp)
    · have h2 : get_current_superuser key now db tok = .error e := by
        simp [get_current_superuser, h1]
      rw [h2] at h
      exact Except.noConfusion h

/-- C7 witness: an undecodable (expired) token is rejected 401 by both
guard variants. -/
theorem C7_guard_status_separation_witness :
    get_current_user 0 9 [] (.signed 0 ⟨some "a", some 1⟩ 5) =
      .ok (.httpError 401 "Could not validate credentials") ∧
    get_current_superuser 0 9 [] (.signed 0 ⟨some "a", some 1⟩ 5) =
      .ok (.httpError 401 "Could not validate credentials") :=
  (C7_guard_status_separation 0 9 [] (.signed 0 ⟨some "a", some 1⟩ 5)).1 (by decide)

/-! ## Claim C6 -/

/-- C6 (counterexample): the claim states that each rejection class of
the websocket endpoint receives a distinct close code.  In fact a missing
token, an undecodable token and a token with malformed claims are all
closed with the same code 4001 (only the reason strings differ), so
clients cannot distinguish these classes by code alone. -/
theorem C6_ws_counterexample :
    websocket_auth 0 5 [] none = .ok (.rejected 4001 "Missing authentication token") ∧
    websocket_auth 0 5 [] (some .malformed) =
      .ok (.rejected 4001 "Invalid or expired token") ∧
    websocket_auth 0 5 [] (some (.signed 0 ⟨some "a", none⟩ 9)) =
      .ok (.rejected 4001 "Invalid token payload") :=
  ⟨by decide, by decide, by decide⟩

/-- C6 (amended): the websocket authorization check runs before the
connection is accepted — an accepted connection implies a present,
decodable token whose id claim resolves to an active identity — and
rejections use exactly two close codes: 4001 for every token-level
failure (missing token, undecodable token, malformed claims) and the
distinct 4003 for an inactive-or-missing identity, in both directions:
every token-level failure closes with 4001, every identity failure
(missing row or inactive row behind a well-formed token) closes with
4003, and a 4003 close conversely implies an identity failure.  Identity
failures are therefore distinguishable from token failures by code
alone, while the three token-level classes share a code and differ only
in reason text. -/
theorem C6_ws_reject_codes (key now : Nat) (db : List UserRec) (token : Option Token) :
    (∀ c r, websocket_auth key now db token = .ok (.rejected c r) →
        c = 4001 ∨ c = 4003) ∧
    (token = none →
        websocket_auth key now db token =
          .ok (.rejected 4001 "Missing authentication token")) ∧
    (∀ t, token = some t → decode_access_token key now t = none →
        websocket_auth key now db token =
          .ok (.rejected 4001 "Invalid or expired token")) ∧
    (∀ t p, token = some t → decode_access_token key now t = some p →
        (p.user_id = none ∨ p.user_id = some 0) →
        websocket_auth key now db token =
          .ok (.rejected 4001 "Invalid token payload")) ∧
    (∀ t p uid, token = some t → decode_access_token key now t = some p →
        p.user_id = some uid → uid ≠ 0 → get_user_by_id db uid = .ok none →
        websocket_auth key now db token =
          .ok (.rejected 4003 "User not found or inactive")) ∧
    (∀ t p uid u, token = some t → decode_access_token key now t = some p →
        p.user_id = some uid → uid ≠ 0 →
        get_user_by_id db uid = .ok (some u) → u.is_active = false →
        websocket_auth key now db token =
          .ok (.rejected 4003 "User not found or inactive")) ∧
    (∀ c r, websocket_auth key now db token = .ok (.rejected c r) → c = 4003 →
        ∃ t p uid, token = some t ∧ decode_access_token key now t = some p ∧
          p.user_id = some uid ∧ uid ≠ 0 ∧
          (get_user_by_id db uid = .ok none ∨
           ∃ u, get_user_by_id db uid = .ok (some u) ∧ u.is_active = false)) ∧
    (∀ u, websocket_auth key now db token = .ok (.accepted u) →
        ∃ t p uid, token = some t ∧ decode_access_token key now t = some p ∧
          p.user_id = some uid ∧ uid ≠ 0 ∧
          get_user_by_id db uid = .ok (some u) ∧ u.is_active = true) := by
  refine ⟨?_, ?_, ?_, ?_, ?_, ?_, ?_, ?_⟩
  · intro c r h
    cases token with
    | none =>
      simp [websocket_auth] at h
      exact Or.inl h.1.symm
    | some t =>
      cases hp : decode_access_token key now t with
      | none =>
        simp [websocket_auth, hp] at h
        exact Or.inl h.1.symm
      | some p =>
        cases hu : p.user_id with
        | none =>
          simp [websocket_auth, hp, hu] at h
          exact Or.inl h.1.symm
        | some uid =>
          by_cases h0 : uid = 0
          · subst h0
            simp [websocket_auth, hp, hu] at h
            exact Or.inl h.1.symm
          · cases hlook : get_user_by_id db uid with
            | error e => simp [websocket_auth, hp, hu, h0, hlook] at h
            | ok o =>
              cases o with
              | none =>
                simp [websocket_auth, hp, hu, h0, hlook] at h
                exact Or.inr h.1.symm
              | some u =>
                cases hact : u.is_active with
                | false =>
                  simp [websocket_auth, hp, hu, h0, hlook, hact] at h
                  exact Or.inr h.1.symm
                | true => simp [websocket_auth, hp, hu, h0, hlook, hact] at h
  · intro h
    simp [websocket_auth, h]
  · intro t ht hp
    simp [websocket_auth, ht, hp]
  · intro t p ht hp hu
    cases hu with
    | inl h0 => simp [websocket_auth, ht, hp, h0]
    | inr h0 => simp [websocket_auth, ht, hp, h0]
  · intro t p uid ht hp hu h0 hlook
    simp [websocket_auth, ht, hp, hu, h0, hlook]
  · intro t p uid u ht hp hu h0 hlook hact
    simp [websocket_auth, ht, hp, hu, h0, hlook, hact]
  · intro c r h hc
    subst hc
    cases token with
    | none => simp [websocket_auth] at h
    | some t =>
      cases hp : decode_access_token key now t with
      | none => simp [websocket_auth, hp] at h
      | some p =>
        cases hu : p.user_id with
        | none => simp [websocket_auth, hp, hu] at h
        | some uid =>
          by_cases h0 : uid = 0
          · subst h0
            simp [websocket_auth, hp, hu] at h
          · cases hlook : get_user_by_id db uid with
            | error e => simp [websocket_auth, hp, hu, h0, hlook] at h
            | ok o =>
              cases o with
              | none => exact ⟨t, p, uid, rfl, hp, hu, h0, Or.inl hlook⟩
              | some u =>
                cases hact : u.is_active with
                | false => exact ⟨t, p, uid, rfl, hp, hu, h0, Or.inr ⟨u, hlook, hact⟩⟩
                | true => simp [websocket_auth, hp, hu, h0, hlook, hact] at h
  · intro u h
    cases token with
    | none => simp [websocket_auth] at h
    | some t =>
      cases hp : decode_access_token key now t with
      | none => simp [websocket_auth, hp] at h
      | some p =>
        cases hu : p.user_id with
        | none => simp [websocket_auth, hp, hu] at h
        | some uid =>
          by_cases h0 : uid = 0
          · subst h0
            simp [websocket_auth, hp, hu] at h
          · cases hlook : get_user_by_id db uid with
            | error e => simp [websocket_auth, hp, hu, h0, hlook] at h
            | ok o =>
              cases o with
              | none => simp [websocket_auth, hp, hu, h0, hlook] at h
              | some w =>
                cases hact : w.is_active with
                | false => simp [websocket_auth, hp, hu, h0, hlook, hact] at h
                | true =>
                  simp [websocket_auth, hp, hu, h0, hlook, hact] at h
                  subst h
                  exact ⟨t, p, uid, rfl, hp, hu, h0, hlook, hact⟩

/-- C6 witness: a websocket connection attempt without a token closes
before accept with code 4001, while a well-formed token naming a stored
but inactive identity closes with the distinct code 4003. -/
theorem C6_ws_reject_codes_witness :
    websocket_auth 3 7 [] none = .ok (.rejected 4001 "Missing authentication token") ∧
    websocket_auth 0 5 [⟨1, "bob", "b@x.com", ⟨"hunter22"⟩, false, false, 0, 0⟩]
        (some (.signed 0 ⟨some "bob", some 1⟩ 10)) =
      .ok (.rejected 4003 "User not found or inactive") :=
  ⟨(C6_ws_reject_codes 3 7 [] none).2.1 rfl,
   (C6_ws_reject_codes 0 5 [⟨1, "bob", "b@x.com", ⟨"hunter22"⟩, false, false, 0, 0⟩]
      (some (.signed 0 ⟨some "bob", some 1⟩ 10))).2.2.2.2.2.1
     (.signed 0 ⟨some "bob", some 1⟩ 10) ⟨some "bob", some 1⟩ 1
     ⟨1, "bob", "b@x.com", false, false, 0, 0⟩
     rfl (by decide) (by decide) (by decide) (by decide) (by decide)⟩

/-! ## Claim C8 -/

/-- C8 (counterexample): the claim states that every registration
accepted as `Register(h, a, s)` can be followed by a successful
`Login(h, s)`.  When some pre-existing identity's address equals the new
handle, registration still succeeds (the duplicate checks compare handle
against handles and address against addresses only), but the login query
matches two rows — one by handle, one by address — so
`scalar_one_or_none` raises `MultipleResultsFound` and the login fails
instead of returning a token. -/
theorem C8_roundtrip_counterexample :
    ((register 0 100 0 2
        [⟨1, "existinguser", "alice@example.com", ⟨"otherpass"⟩, true, false, 0, 0⟩]
        ⟨"alice@example.com", "new@example.com", "secretpw1"⟩).1.isOk = true) ∧
    login 0 100 0
        (register 0 100 0 2
          [⟨1, "existinguser", "alice@example.com", ⟨"otherpass"⟩, true, false, 0, 0⟩]
          ⟨"alice@example.com", "new@example.com", "secretpw1"⟩).2
        "alice@example.com" "secretpw1" =
      .error (.internal .multipleResults) :=
  ⟨by decide, by decide⟩

/-- C8 (amended): for every handle, address and secret accepted by
`Register`, provided no pre-existing identity's address equals the new
handle, a subsequent `Login` with that handle and secret succeeds and
yields a token that validates (before expiry, under the same key) to
claims whose embedded identity-id equals the id of the identity the
registration created. -/
theorem C8_register_login_roundtrip (key ttl t1 t2 t3 nextId : Nat)
    (db : List UserRec) (uc : UserCreate)
    (resp : RegisterResponse) (db2 : List UserRec)
    (hreg : register key ttl t1 nextId db uc = (.ok resp, db2))
    (hnomail : ∀ u ∈ db, u.email ≠ uc.username)
    (hfresh : t3 < t2 + ttl) :
    ∃ p : TokenPayload,
      login key ttl t2 db2 uc.username uc.password = .ok (.signed key p (t2 + ttl)) ∧
      decode_access_token key t3 (.signed key p (t2 + ttl)) = some p ∧
      p.user_id = some resp.user.id := by
  cases hfilU : db.filter (fun v => v.username == uc.username) with
  | cons a t =>
    cases t <;> simp [register, create_user, hfilU, scalar_one_or_none] at hreg
  | nil =>
    cases hfilE : db.filter (fun v => v.email == uc.email) with
    | cons a t =>
      cases t <;> simp [register, create_user, hfilU, hfilE, scalar_one_or_none] at hreg
    | nil =>
      simp [register, create_user, hfilU, hfilE, scalar_one_or_none] at hreg
      obtain ⟨hresp, hdb2⟩ := hreg
      have hdbnil : db.filter
          (fun v => v.username == uc.username || v.email == uc.username) = [] := by
        rw [List.filter_eq_nil_iff]
        intro v hv
        rw [List.filter_eq_nil_iff] at hfilU
        have h1 := hfilU v hv
        have h2 := hnomail v hv
        simp at h1 ⊢
        exact ⟨h1, h2⟩
      have hfil2 : db2.filter
          (fun v => v.username == uc.username || v.email == uc.username) =
          [{ id := nextId, username := uc.username, email := uc.email
             hashed_password := get_password_hash uc.password
             is_active := true, is_superuser := false
             created_at := t1, updated_at := t1 }] := by
        rw [← hdb2, List.filter_append, hdbnil]
        simp
      refine ⟨⟨some uc.username, some nextId⟩, ?_, ?_, ?_⟩
      · simp [login, authenticate_user, hfil2, scalar_one_or_none,
          verify_password, get_password_hash, toUser, create_access_token]
      · simp [decode_access_token, hfresh]
      · rw [← hresp]
        simp [toUser]

/-- C8 witness: a concrete register-then-login round trip on an empty
store validates back to the registered id. -/
theorem C8_register_login_roundtrip_witness :
    ∃ p : TokenPayload,
      login 0 100 10 [⟨1, "alice", "a@b.c", ⟨"password1"⟩, true, false, 0, 0⟩]
        "alice" "password1" = .ok (.signed 0 p 110) ∧
      decode_access_token 0 50 (.signed 0 p 110) = some p ∧
      p.user_id = some 1 :=
  C8_register_login_roundtrip 0 100 0 10 50 1 [] ⟨"alice", "a@b.c", "password1"⟩
    ⟨⟨1, "alice", "a@b.c", true, false, 0, 0⟩, .signed 0 ⟨some "alice", some 1⟩ 100⟩
    [⟨1, "alice", "a@b.c", ⟨"password1"⟩, true, false, 0, 0⟩]
    (by decide) (by simp) (by decide)
